import Mathlib

/-!
Verification of the frame-range arithmetic, output-path templating and
Deadline-submission logic of the After Effects "add selected comps to
render queue" dialog (`src/python/app/dialog.py`),
shallowly embedded in Lean.

Conventions of the embedding:
* Python floats are modelled as exact rationals (`ℚ`); Python ints as `ℤ`/`ℕ`.
* Python 3 `round` (banker's rounding, half to even) is modelled by `pyRound`;
  `int(...)` truncation toward zero by `pyTrunc`.
* Strings manipulated character-wise are modelled as `List Char`; strings that
  are only concatenated are modelled as `String`.
* Host-application (Adobe scripting bridge) and pipeline-toolkit values that
  the dialog merely reads are inputs of the embedded functions; host calls
  whose results the dialog branches on are boolean oracle fields.
* Filesystem and render-queue mutations are reified as explicit effect lists.
-/

/-- Python 3 `round` on an exact rational: nearest integer, ties to even. -/
def pyRound (q : ℚ) : ℤ :=
  if Int.fract q < 1/2 then ⌊q⌋
  else if (1:ℚ)/2 < Int.fract q then ⌊q⌋ + 1
  else if ⌊q⌋ % 2 = 0 then ⌊q⌋ else ⌊q⌋ + 1

/-- Python `int(...)` on a rational: truncation toward zero. -/
def pyTrunc (q : ℚ) : ℤ :=
  if 0 ≤ q then ⌊q⌋ else ⌈q⌉

/-- Value of a string of decimal digits, as Python `int(...)` computes it. -/
def digitsToNat (l : List Char) : ℕ :=
  l.foldl (fun acc c => acc * 10 + (c.toNat - '0'.toNat)) 0

/-- Python `str.replace` (all non-overlapping occurrences, scanning left to
right) for the nonempty literal patterns used in the dialog.  An empty
pattern leaves the string unchanged. -/
def replaceFrom (pat rep : List Char) : List Char → List Char
  | [] => []
  | c :: t =>
    if h : pat ≠ [] ∧ pat.isPrefixOf (c :: t) then
      rep ++ replaceFrom pat rep ((c :: t).drop pat.length)
    else
      c :: replaceFrom pat rep t
termination_by l => l.length
decreasing_by
  · simp only [List.length_drop]
    have hpat : 0 < pat.length := List.length_pos.mpr h.1
    simp only [List.length_cons]
    omega
  · simp only [List.length_cons]
    omega

/-- `str.replace` on `String`s. -/
def stringReplace (s : String) (pat rep : String) : String :=
  (replaceFrom pat.data rep.data s.data).asString

/-- Largest `k < n` with `p k`, if any: the greedy (leftmost-longest) choice
points made by Python's backtracking regex engine for a leading `(.*)`. -/
def lastSat (p : ℕ → Bool) (n : ℕ) : Option ℕ :=
  ((List.range n).filter p).getLast?

/-- The composition attributes read by the dialog
(`comp.frameDuration`, `comp.displayStartFrame`, `comp.displayStartTime`,
`comp.workAreaStart`, `comp.workAreaDuration`, `comp.duration`, `comp.name`). -/
structure Comp where
  name : String
  frameDuration : ℚ
  displayStartFrame : ℤ
  displayStartTime : ℚ
  workAreaStart : ℚ
  workAreaDuration : ℚ
  duration : ℚ
deriving DecidableEq

/-- `AppDialog.CUSTOM_TEXT`. -/
def customText : String := "Custom frame range"

/-- `AppDialog.COMP_TEXT`. -/
def compText : String := "Comp frame range"

/-- `AppDialog.WORK_AREA_TEXT`. -/
def workAreaText : String := "Work area frame range"

/-- `AppDialog.SINGLE_FRAME_TEXT`. -/
def singleFrameText : String := "Single frame"

/-- The frame-number formula `int(round(time / frameDuration)) + displayStartFrame`
that the spec claims converts a composition time to a displayed frame number. -/
def frameNumOfTime (c : Comp) (t : ℚ) : ℤ :=
  pyRound (t / c.frameDuration) + c.displayStartFrame

/-- State of the per-row frame-range line edit after `refresh_frame_range`. -/
structure LineEditState where
  enabled : Bool
  text : String
deriving DecidableEq

/-- `AppDialog.refresh_frame_range` (dialog.py:330-395): the line-edit state
produced for each frame-range combo selection.  `firstFrame`/`lastFrame` are
the `default_first_frame`/`default_last_frame` settings.  Returns `none` when
the combo text is none of the four options (the method then does nothing). -/
def refresh_frame_range (modeText : String) (c : Comp) (firstFrame lastFrame : ℤ) :
    Option LineEditState :=
  if modeText = customText then
    some ⟨true, toString firstFrame ++ " - " ++ toString lastFrame⟩
  else if modeText = singleFrameText then
    some ⟨true, toString firstFrame⟩
  else if modeText = workAreaText then
    let startFrame := c.workAreaStart
    let endFrame := startFrame + c.workAreaDuration
    let startFrameNum := pyRound (startFrame / c.frameDuration) + c.displayStartFrame
    let endFrameNum := pyRound (endFrame / c.frameDuration) + c.displayStartFrame
    some ⟨false, toString startFrameNum ++ " - " ++ toString endFrameNum⟩
  else if modeText = compText then
    let endFrame := c.duration
    let endFrameNum := pyRound (endFrame / c.frameDuration) + c.displayStartFrame
    some ⟨false, toString c.displayStartFrame ++ " - " ++ toString endFrameNum⟩
  else none

/-- The frame numbers `get_frame_range` computes (into its debug log) in the
`COMP_TEXT` branch (dialog.py:625-651): `startFrame = 0`, `endFrame =
comp.duration`, with the `int(startFrame) == 0` special case for the start. -/
def get_frame_range_comp_debug_nums (c : Comp) : ℤ × ℤ :=
  let startFrame : ℚ := 0
  let endFrame := c.duration
  ((if pyTrunc startFrame = 0 then c.displayStartFrame
    else pyRound (startFrame / c.frameDuration) + c.displayStartFrame),
   pyRound (endFrame / c.frameDuration) + c.displayStartFrame)

/-- The frame numbers `get_frame_range` computes (into its debug log) in the
`WORK_AREA_TEXT` branch (dialog.py:657-676). -/
def get_frame_range_work_area_debug_nums (c : Comp) : ℤ × ℤ :=
  let startFrame := c.workAreaStart
  let endFrame := startFrame + c.workAreaDuration
  (pyRound (startFrame / c.frameDuration) + c.displayStartFrame,
   pyRound (endFrame / c.frameDuration) + c.displayStartFrame)

/-- `re.match(r'(\d+)(\D+)(\d+)', text)` as used by the custom-range branch of
`get_frame_range` (dialog.py:683): a leading run of digits, a nonempty run of
non-digits, and a further nonempty run of digits (prefix match; trailing
characters are ignored).  Returns `int(group(1))` and `int(group(3))`. -/
def matchCustomRange (text : List Char) : Option (ℕ × ℕ) :=
  let d1 := text.takeWhile Char.isDigit
  let r1 := text.dropWhile Char.isDigit
  let sep := r1.takeWhile (fun c => !c.isDigit)
  let r2 := r1.dropWhile (fun c => !c.isDigit)
  let d2 := r2.takeWhile Char.isDigit
  if d1.isEmpty || sep.isEmpty || d2.isEmpty then none
  else some (digitsToNat d1, digitsToNat d2)

/-- `re.match(r'(\d+)', text)` as used by the single-frame branch of
`get_frame_range` (dialog.py:706): a nonempty leading run of digits. -/
def matchLeadingDigits (text : List Char) : Option ℕ :=
  let d := text.takeWhile Char.isDigit
  if d.isEmpty then none else some (digitsToNat d)

/-- `AppDialog.get_frame_range` (dialog.py:596-718): the `[startFrame, endFrame]`
pair returned for a row, given the row's combo text and line-edit text. -/
def get_frame_range (mode : String) (lineText : List Char) (c : Comp) :
    Option ℚ × Option ℚ :=
  if mode = compText then
    (some 0, some c.duration)
  else if mode = workAreaText then
    (some c.workAreaStart, some (c.workAreaStart + c.workAreaDuration))
  else if mode = customText then
    match matchCustomRange lineText with
    | some (a, b) =>
      (some (c.frameDuration * a - c.displayStartTime),
       some (c.frameDuration * b - c.displayStartTime + 1/10000))
    | none => (none, none)
  else if mode = singleFrameText then
    match matchLeadingDigits lineText with
    | some n =>
      let s := c.frameDuration * n - c.displayStartTime
      (some s, some s)
    | none => (none, none)
  else (none, none)

/-- Does `s.drop j` start with `'_' 'v' digit digit digit`?  This is where the
`(_v)(\d\d\d)` part of the project-file-name pattern
`(.*)(_)(.*)(_v)(\d\d\d)(.*)` (dialog.py:537,807) can be placed. -/
def vpatAt (s : List Char) (j : ℕ) : Bool :=
  match s.drop j with
  | c0 :: c1 :: d1 :: d2 :: d3 :: _ =>
    c0 == '_' && c1 == 'v' && d1.isDigit && d2.isDigit && d3.isDigit
  | _ => false

/-- Does `s.drop i` start with `'_'`?  Placement of the `(_)` group. -/
def underscoreAt (s : List Char) (i : ℕ) : Bool :=
  match s.drop i with
  | c :: _ => c == '_'
  | [] => false

/-- Is there a position `j > i` where the `(_v)(\d\d\d)` part can match? -/
def hasLaterVpat (s : List Char) (i : ℕ) : Bool :=
  (List.range s.length).any (fun j => decide (i < j) && vpatAt s j)

/-- `re.match(r'(.*)(_)(.*)(_v)(\d\d\d)(.*)', s)`: Python's greedy backtracking
places the `(_)` underscore at the last feasible position `i`, then `(_v)` at
the last feasible position `j > i`.  Returns `(group(3), int(group(5)))`, the
fields the dialog extracts (name and version). -/
def pyMatchFile (s : List Char) : Option (List Char × ℕ) :=
  match lastSat (fun i => underscoreAt s i && hasLaterVpat s i) s.length with
  | none => none
  | some i =>
    match lastSat (fun j => decide (i < j) && vpatAt s j) s.length with
    | none => none
    | some j =>
      some ((s.drop (i+1)).take (j - (i+1)), digitsToNat ((s.drop (j+2)).take 3))

/-- The spec's reading of the file-name pattern: the name decomposes as
`EntityName ++ "_" ++ Name ++ "_v" ++ three digits ++ rest`. -/
def filePatternHolds (s : List Char) : Prop :=
  ∃ a b d1 d2 d3 c, d1.isDigit = true ∧ d2.isDigit = true ∧ d3.isDigit = true ∧
    s = a ++ '_' :: (b ++ '_' :: 'v' :: d1 :: d2 :: d3 :: c)

/-- A value stored in a toolkit template-fields mapping. -/
inductive FieldVal where
  | str (s : List Char)
  | int (n : ℤ)
deriving DecidableEq

/-- A template-fields mapping (`fields` dict in `get_shotgrid_template`). -/
def Fields : Type := List Char → Option FieldVal

/-- Python dict assignment `fields[key] = val`. -/
def setField (f : Fields) (key : List Char) (val : FieldVal) : Fields :=
  fun k => if k = key then some val else f k

/-- A resolved pipeline-toolkit path template: its key names and its
`apply_fields` resolution (the toolkit's templating engine is outside the
repository and is modelled as an opaque total function). -/
structure TkTemplate where
  keys : List (List Char)
  applyFields : Fields → List Char

/-- The toolkit/host inputs read by `get_shotgrid_template`:
the `mov_render_template`/`seq_render_template` settings, template resolution
by name, the context base fields, and the open project's file name. -/
structure SgEnv where
  movRenderTemplateName : List Char
  seqRenderTemplateName : List Char
  getTemplateByName : List Char → TkTemplate
  contextFields : TkTemplate → Fields
  projectFileName : List Char

/-- `os.path.basename` (the part after the last path separator). -/
def baseName (s : List Char) : List Char :=
  (s.reverse.takeWhile (fun c => !(c == '/' || c == '\\'))).reverse

/-- `AppDialog.get_shotgrid_template` (dialog.py:783-824).  `Except.error` is
the `raise Exception(...)` on an unparsable project file name. -/
def get_shotgrid_template (env : SgEnv) (render_queue_template : List Char) :
    Except String (List Char) :=
  let template_file_name := baseName render_queue_template
  let templateName :=
    if "mov".data.isPrefixOf template_file_name then env.movRenderTemplateName
    else env.seqRenderTemplateName
  let template := env.getTemplateByName templateName
  let fields := env.contextFields template
  match pyMatchFile env.projectFileName with
  | none => .error "Couldn't retrieve info from filename, try saving your scene?"
  | some (g3, ver) =>
    let fields := setField fields "name".data (.str g3)
    let fields := setField fields "version".data (.int ver)
    let fields := setField fields "ext".data (.str (template_file_name.takeWhile (fun c => !(c == '_'))))
    if "SEQ".data ∈ template.keys then
      let fields := setField fields "SEQ".data (.int 9999)
      .ok (replaceFrom ".9999.".data ".[####].".data (template.applyFields fields))
    else
      .ok (template.applyFields fields)

/-- The output path as the spec describes it: choose `mov_render_template`
when the template file name starts with `mov` and `seq_render_template`
otherwise; when `SEQ` is among the resolved template's keys, apply the fields
with `SEQ` set to `9999` and replace `.9999.` by `.[####].`; otherwise return
exactly what `apply_fields` produced. -/
def specOutputPath (env : SgEnv) (render_queue_template : List Char)
    (g3 : List Char) (ver : ℕ) : List Char :=
  let template_file_name := baseName render_queue_template
  let templateName :=
    if "mov".data.isPrefixOf template_file_name then env.movRenderTemplateName
    else env.seqRenderTemplateName
  let template := env.getTemplateByName templateName
  let fields := env.contextFields template
  let fields := setField fields "name".data (.str g3)
  let fields := setField fields "version".data (.int ver)
  let fields := setField fields "ext".data (.str (template_file_name.takeWhile (fun c => !(c == '_'))))
  if "SEQ".data ∈ template.keys then
    replaceFrom ".9999.".data ".[####].".data
      (template.applyFields (setField fields "SEQ".data (.int 9999)))
  else
    template.applyFields fields

/-- A character matched by the class `[a-zA-Z0-9_]`. -/
def wordChar (c : Char) : Bool :=
  c.isAlpha || c.isDigit || c == '_'

/-- The part of a string that `[a-zA-Z0-9_]+` must cover when the pattern
`^[a-zA-Z0-9_]+$` is matched: Python's `$` also matches just before a single
newline at the end of the string, so such a trailing newline is dropped. -/
def regexBody (s : List Char) : List Char :=
  if s.getLast? = some '\n' then s.dropLast else s

/-- `re.match(r'^[a-zA-Z0-9_]+$', name)` succeeds (dialog.py:1363): the name,
minus an optional single trailing newline, is a nonempty run of word
characters. -/
def nameRegexMatch (s : List Char) : Bool :=
  !(regexBody s).isEmpty && (regexBody s).all wordChar

/-- The leading/trailing-space check of `submit_to_deadline` (dialog.py:1353):
`name.startswith(" ") or name.endswith(" ")`. -/
def spacesReject (s : List Char) : Bool :=
  s.head? == some ' ' || s.getLast? == some ' '

/-- `adobe.RQItemStatus` values the dialog distinguishes. -/
inductive RQItemStatus where
  | QUEUED
  | NEEDS_OUTPUT
  | OTHER
deriving DecidableEq

/-- The attributes of a render-queue item read by
`submit_render_queue_item_to_deadline`: the comp name, the (name, fsName)
pairs of its output-module files in order, and its comp/time-span numbers. -/
structure SubmitItem where
  compName : String
  outputFiles : List (String × String)
  frameDuration : ℚ
  displayStartTime : ℚ
  timeSpanStart : ℚ
  timeSpanDuration : ℚ
deriving DecidableEq

/-- A row of the comp table as seen by `submit_to_deadline`: the include
checkbox, the render-queue item's status, and the item itself. -/
structure SubmitRow where
  includeChecked : Bool
  status : RQItemStatus
  item : SubmitItem
deriving DecidableEq

/-- The Deadline settings dictionary as consumed by
`submit_render_queue_item_to_deadline`.  A `none` field is a key absent from
the dict, read through `dict.get(key, default)`; `machine_list` is read by
direct indexing and so is required.  String fields are rendered verbatim into
the job files; the defaults are rendered from the literals in the code. -/
structure DeadlineSettings where
  priority : Option String
  comment : Option String
  department : Option String
  group : Option String
  pool : Option String
  secondary_pool : Option String
  task_timeout_minutes : Option String
  limit_groups : Option String
  concurrent_tasks : Option String
  limit_concurrent_tasks_to_number_cpus : Option String
  job_dependencies : Option String
  on_job_complete : Option String
  failure_detection_task_errors : Option String
  failure_detection_job_errors : Option String
  frame_list : Option String
  machine_limit : Option String
  chunk_size : Option String
  machine_list : String
  submit_allow_list_as_deny_list : Option Bool
  submit_suspended : Option Bool
  override_frame_list : Option Bool
  first_and_last : Option Bool
  multi_machine : Option Bool
  submit_scene : Option Bool
  include_output_path : Option Bool
  missing_layers : Option Bool
  missing_effects : Option Bool
  fail_on_warnings : Option Bool
  local_rendering : Option Bool
  fail_on_missing_file : Option Bool
  delete_files : Option Bool
  memory_management : Option Bool
  multi_process : Option Bool
  missing_footage : Option Bool
  override_fail_on_existing_ae_process : Option Bool
  fail_on_existing_ae_process : Option Bool
  multi_machine_tasks : Option ℚ
  file_size : Option ℚ
  image_cache_percentage : Option ℚ
  max_memory_percentage : Option ℚ
deriving DecidableEq

/-- Host and environment inputs of the submission path. -/
structure SubmitEnv where
  movieFormats : List String
  projectFileName : String
  projectFsName : String
  selfProjectName : String
  frameOffset : ℤ
  appVersion : String
  tempFolder : String
  timestamp : String
  hasProject : Bool
  hasProjectFile : Bool
  rqNumItems : ℕ

/-- Python `f"{b}"` for a boolean. -/
def pyBoolStr (b : Bool) : String :=
  if b then "True" else "False"

/-- `os.path.join` for two components (POSIX model; the second component the
dialog passes is never absolute). -/
def osPathJoinL (a b : List Char) : List Char :=
  if b.head? = some '/' then b
  else if a = [] ∨ a.getLast? = some '/' then a ++ b
  else a ++ '/' :: b

/-- `os.path.join` on `String`s. -/
def osPathJoin (a b : String) : String :=
  (osPathJoinL a.data b.data).asString

/-- `os.path.dirname` (POSIX model): everything before the last separator,
with trailing separators stripped unless the result is all separators. -/
def dirName (p : List Char) : List Char :=
  let tailLen := (p.reverse.takeWhile (fun c => !(c == '/'))).length
  let head := p.take (p.length - tailLen)
  if head ≠ [] ∧ ¬ head.all (fun c => c = '/') then
    (head.reverse.dropWhile (fun c => c == '/')).reverse
  else head

/-- `os.path.dirname` on `String`s. -/
def dirNameStr (s : String) : String :=
  (dirName s.data).asString

/-- `os.path.basename` on `String`s. -/
def baseNameStr (s : String) : String :=
  (baseName s.data).asString

/-- Python `str.strip()` (whitespace from both ends). -/
def pyStrip (s : String) : String :=
  (((s.data.dropWhile Char.isWhitespace).reverse.dropWhile Char.isWhitespace).reverse).asString

/-- The `'.'.join(app_version.split('x')[0].split('.')[:2])` major.minor
extraction of `submit_to_deadline` (dialog.py:1262). -/
def versionMajorMinor (v : String) : String :=
  String.intercalate "." ((((v.splitOn "x").headD "").splitOn ".").take 2)

/-- Is the output a movie, i.e. does the output file name end with one of the
configured `movie_formats` extensions (dialog.py:1459)? -/
def isMovieOutput (movieFormats : List String) (outputFileName : String) : Bool :=
  movieFormats.any (fun ext => ext.data.isSuffixOf outputFileName.data)

/-- The output-module file name `submit_render_queue_item_to_deadline` works
with: the file of `outputModule(numOutputModules)`, the last one. -/
def lastOutputFileName (item : SubmitItem) : String :=
  ((item.outputFiles.getLast?).map Prod.fst).getD ""

/-- The `start_frame`/`end_frame`/`frame_list` trio after the
override-frame-list block of `submit_render_queue_item_to_deadline`
(dialog.py:1447-1473). -/
def submitFrameList (env : SubmitEnv) (s : DeadlineSettings) (item : SubmitItem) :
    String × String × String :=
  let frame_list := (s.frame_list).getD ""
  let override_frame_list := (s.override_frame_list).getD false
  let first_and_last := (s.first_and_last).getD false
  let multi_machine := (s.multi_machine).getD false
  if override_frame_list || multi_machine then
    let base :=
      if item.displayStartTime ≠ 0 then
        let start_frame := env.frameOffset
          + pyRound (item.displayStartTime / item.frameDuration)
          + pyRound (item.timeSpanStart / item.frameDuration)
        let end_frame := start_frame + pyRound (item.timeSpanDuration / item.frameDuration) - 1
        (toString start_frame, toString end_frame,
         toString start_frame ++ "-" ++ toString end_frame)
      else ("", "", frame_list)
    if first_and_last && !multi_machine then
      (base.1, base.2.1, base.1 ++ "," ++ base.2.1 ++ "," ++ base.2.2)
    else base
  else ("", "", frame_list)

/-- The lines of the Deadline submission info file `ae_submit_info.job`
written by `submit_render_queue_item_to_deadline` (dialog.py:1486-1543).
`dependent_comps` is the constant `False` of dialog.py:1457. -/
def submitInfoLines (env : SubmitEnv) (s : DeadlineSettings) (item : SubmitItem)
    (previousJobId : String) : List String :=
  let project_name := baseNameStr env.projectFileName
  let fl := submitFrameList env s item
  let frame_list := fl.2.2
  let multi_machine := (s.multi_machine).getD false
  let is_movie := isMovieOutput env.movieFormats (lastOutputFileName item)
  let dependent_comps := false
  let dependent_job_id := if previousJobId = "" then "" else previousJobId
  let current_job_dependencies :=
    if dependent_comps && dependent_job_id ≠ "" then
      if (s.job_dependencies).getD "" = "" then dependent_job_id
      else dependent_job_id ++ "," ++ (s.job_dependencies).getD ""
    else (s.job_dependencies).getD ""
  let job_name0 := project_name ++ " - " ++ item.compName
  let job_name :=
    if multi_machine then job_name0 ++ " (multi-machine rendering " ++ frame_list ++ ")"
    else job_name0
  ["Plugin=AfterEffects", "Name=" ++ job_name]
  ++ (if dependent_comps then ["BatchName=" ++ project_name] else [])
  ++ ["Comment=" ++ (s.comment).getD "",
      "Department=" ++ (s.department).getD env.selfProjectName,
      "Group=" ++ (s.group).getD "ae",
      "Pool=" ++ (s.pool).getD "none",
      "SecondaryPool=" ++ (s.secondary_pool).getD "none",
      "Priority=" ++ (s.priority).getD "30",
      "TaskTimeoutMinutes=" ++ (s.task_timeout_minutes).getD "0",
      "LimitGroups=" ++ (s.limit_groups).getD "",
      "ConcurrentTasks=" ++ (s.concurrent_tasks).getD "1",
      "LimitConcurrentTasksToNumberOfCpus=" ++ (s.limit_concurrent_tasks_to_number_cpus).getD "0",
      "JobDependencies=" ++ current_job_dependencies,
      "OnJobComplete=" ++ (s.on_job_complete).getD "Nothing",
      "FailureDetectionTaskErrors=" ++ (s.failure_detection_task_errors).getD "8",
      "FailureDetectionJobErrors=" ++ (s.failure_detection_job_errors).getD "20"]
  ++ (if (s.submit_allow_list_as_deny_list).getD false then
        ["Blacklist=" ++ s.machine_list]
      else ["Whitelist=" ++ s.machine_list])
  ++ (if (s.submit_suspended).getD false then ["InitialStatus=Suspended"] else [])
  ++ (if !is_movie && multi_machine then
        ["Frames=1-" ++ toString (((s.multi_machine_tasks).map pyRound).getD 0)]
      else ["Frames=" ++ frame_list])
  ++ item.outputFiles.map (fun f =>
       "OutputFilename0=" ++ stringReplace (stringReplace f.2 "[#" "#") "#]" "#")
  ++ (if is_movie then
        ["MachineLimit=1", "ChunkSize=1000000"]
      else if multi_machine then
        ["MachineLimit=0", "ChunkSize=1"]
      else
        ["MachineLimit=" ++ (s.machine_limit).getD "0",
         "ChunkSize=" ++ (s.chunk_size).getD "15"])
  ++ (if multi_machine then ["ExtraInfoKeyValue0=FrameRangeOverride=" ++ frame_list] else [])

/-- The lines of the Deadline plugin info file `ae_plugin_info.job` written by
`submit_render_queue_item_to_deadline` (dialog.py:1546-1590).  Numeric values
are rendered with `toString`, standing in for Python number formatting. -/
def pluginInfoLines (env : SubmitEnv) (s : DeadlineSettings) (item : SubmitItem)
    (projectPath version : String) : List String :=
  let fl := submitFrameList env s item
  let multi_machine := (s.multi_machine).getD false
  let output_folder := dirNameStr (lastOutputFileName item)
  ["SceneFile=" ++ projectPath, "Comp=" ++ item.compName]
  ++ (if (s.include_output_path).getD false then ["Output=" ++ output_folder] else [])
  ++ (if multi_machine then
        ["MultiMachineMode=True",
         "MultiMachineStartFrame=" ++ fl.1,
         "MultiMachineEndFrame=" ++ fl.2.1]
      else [])
  ++ ["Version=" ++ version,
      "SubmittedFromVersion=" ++ env.appVersion,
      "IgnoreMissingLayerDependenciesErrors=" ++ pyBoolStr ((s.missing_layers).getD false),
      "IgnoreMissingEffectReferencesErrors=" ++ pyBoolStr ((s.missing_effects).getD false),
      "FailOnWarnings=" ++ pyBoolStr ((s.fail_on_warnings).getD false)]
  ++ (if !multi_machine then
        (if (s.fail_on_missing_file).getD false then
           ["MinFileSize=" ++ toString (max 1 (pyRound ((s.file_size).getD 0))),
            "DeleteFilesUnderMinSize=" ++ pyBoolStr true]
         else
           ["MinFileSize=" ++ toString ((s.file_size).getD 0),
            "DeleteFilesUnderMinSize=" ++ pyBoolStr ((s.delete_files).getD false)])
        ++ (if (s.include_output_path).getD false then
              ["LocalRendering=" ++ pyBoolStr ((s.local_rendering).getD false)]
            else [])
      else [])
  ++ ["OverrideFailOnExistingAEProcess=" ++ pyBoolStr ((s.override_fail_on_existing_ae_process).getD false),
      "FailOnExistingAEProcess=" ++ pyBoolStr ((s.fail_on_existing_ae_process).getD false),
      "MemoryManagement=" ++ pyBoolStr ((s.memory_management).getD false),
      "ImageCachePercentage=" ++ toString (pyRound ((s.image_cache_percentage).getD 0)),
      "MaxMemoryPercentage=" ++ toString (pyRound ((s.max_memory_percentage).getD 0)),
      "MultiProcess=" ++ pyBoolStr ((s.multi_process).getD false),
      "ContinueOnMissingFootage=" ++ pyBoolStr ((s.missing_footage).getD false)]

/-- `AppDialog.get_deadline_command` (dialog.py:1180-1203): `envVar` is the
`DEADLINE_PATH` environment variable, `osxFileContents` the contents of
`/Users/Shared/Thinkbox/DEADLINE_PATH` when that file exists. -/
def get_deadline_command (envVar osxFileContents : Option String) : String :=
  let deadlineBin := envVar.getD ""
  let deadlineBin :=
    if deadlineBin = "" then
      match osxFileContents with
      | some contents => pyStrip contents
      | none => deadlineBin
    else deadlineBin
  osPathJoin deadlineBin "deadlinecommand"

/-- Does `call_deadline_command` (dialog.py:1217-1220) take its
"Deadline command not found" early return? -/
def callDeadlineCommandEarlyReturn (envVar osxFileContents : Option String) : Bool :=
  get_deadline_command envVar osxFileContents = ""

/-- A filesystem-visible effect of the submission path. -/
inductive FsEffect where
  | saveProject
  | makeDirs (path : String)
  | writeFile (path : String) (lines : List String)
  | copyFile (src dst : String)
  | runCommand (cmd : String) (args : List String)
deriving DecidableEq

/-- The effects of one `submit_render_queue_item_to_deadline` call
(dialog.py:1416-1597): create the temp folder, write the two job files, and
invoke `deadlinecommand` on them. -/
def submitItemEffects (env : SubmitEnv) (s : DeadlineSettings) (item : SubmitItem)
    (projectPath previousJobId version : String)
    (deadlineEnvVar deadlineOsxFile : Option String) : List FsEffect :=
  let submit_info_path := osPathJoin env.tempFolder "ae_submit_info.job"
  let plugin_info_path := osPathJoin env.tempFolder "ae_plugin_info.job"
  [FsEffect.makeDirs env.tempFolder,
   FsEffect.writeFile submit_info_path (submitInfoLines env s item previousJobId),
   FsEffect.writeFile plugin_info_path (pluginInfoLines env s item projectPath version),
   FsEffect.runCommand (get_deadline_command deadlineEnvVar deadlineOsxFile)
     [submit_info_path, plugin_info_path]]

/-- The per-row gate of the submission loop (dialog.py:1343-1370): a row is
submitted only when its include checkbox is checked, its status is `QUEUED`,
its comp name has no leading/trailing space, and the comp name matches
`^[a-zA-Z0-9_]+$` (checks applied in this short-circuit order). -/
def rowSubmitted (r : SubmitRow) : Bool :=
  r.includeChecked && r.status == RQItemStatus.QUEUED
    && !(spacesReject r.item.compName.data)
    && nameRegexMatch r.item.compName.data

/-- The filesystem effects of `AppDialog.submit_to_deadline`
(dialog.py:1247-1414): after the project checks, optionally save the project,
create the `deadline_submission_backup` folder next to the project when it is
missing, copy the project file into it with a timestamp suffix, then submit
every row that passes the per-row gate. -/
def submit_to_deadline_effects (env : SubmitEnv) (s : DeadlineSettings)
    (rows : List SubmitRow) (saveProjectYes backupDirExists : Bool)
    (deadlineEnvVar deadlineOsxFile : Option String) : List FsEffect :=
  if !(env.hasProject && env.hasProjectFile && env.rqNumItems ≠ 0 && !rows.isEmpty) then []
  else
    let version := versionMajorMinor env.appVersion
    let backup_location := osPathJoin (dirNameStr env.projectFsName) "deadline_submission_backup"
    let backup_file := stringReplace (osPathJoin backup_location env.projectFileName)
      ".aep" ("_" ++ env.timestamp ++ ".aep")
    let project_path := env.projectFsName
    (if saveProjectYes then [FsEffect.saveProject] else [])
    ++ (if !backupDirExists then [FsEffect.makeDirs backup_location] else [])
    ++ [FsEffect.copyFile env.projectFsName backup_file]
    ++ (rows.map (fun r =>
          if rowSubmitted r then
            submitItemEffects env s r.item project_path "" version
              deadlineEnvVar deadlineOsxFile
          else [])).flatten

/-- Drop one leading occurrence of `c`, for the `\[?` / `\]?` parts of the
single-frame output regex. -/
def dropOpt (c : Char) (l : List Char) : List Char :=
  match l with
  | x :: t => if x = c then t else l
  | [] => []

theorem dropOpt_length_le (c : Char) (l : List Char) : (dropOpt c l).length ≤ l.length := by
  cases l with
  | nil => simp [dropOpt]
  | cons x t =>
    by_cases h : x = c <;> simp [dropOpt, h]

theorem dropWhile_length_le (p : Char → Bool) (l : List Char) :
    (l.dropWhile p).length ≤ l.length :=
  List.Sublist.length_le (List.IsSuffix.sublist (List.dropWhile_suffix p))

/-- `re.sub(r'\.\[?\#*\]?\.*', '.', s)` (dialog.py:565): every occurrence of a
dot, an optional `[`, a run of `#`, an optional `]` and a run of dots is
collapsed to a single dot, scanning left to right without overlap. -/
def subFrameToken : List Char → List Char
  | [] => []
  | c :: t =>
    if c = '.' then
      '.' :: subFrameToken
        ((dropOpt ']' ((dropOpt '[' t).dropWhile (fun x => x == '#'))).dropWhile
          (fun x => x == '.'))
    else c :: subFrameToken t
termination_by l => l.length
decreasing_by
  · have h1 : ((dropOpt ']' ((dropOpt '[' t).dropWhile (fun x => x == '#'))).dropWhile
        (fun x => x == '.')).length
        ≤ (dropOpt ']' ((dropOpt '[' t).dropWhile (fun x => x == '#'))).length :=
      dropWhile_length_le _ _
    have h2 := dropOpt_length_le ']' ((dropOpt '[' t).dropWhile (fun x => x == '#'))
    have h3 : ((dropOpt '[' t).dropWhile (fun x => x == '#')).length
        ≤ (dropOpt '[' t).length := dropWhile_length_le _ _
    have h4 := dropOpt_length_le '[' t
    simp only [List.length_cons]
    omega
  · simp only [List.length_cons]
    omega

/-- `re.sub(r'([^.]+)', rep, s, 1)` (dialog.py:547): the first maximal
nonempty run of non-dot characters is replaced by `rep`. -/
def subFirstNonDotRun (rep s : List Char) : List Char :=
  let pre := s.takeWhile (fun c => c == '.')
  let rest := s.dropWhile (fun c => c == '.')
  if rest.isEmpty then s
  else pre ++ rep ++ rest.dropWhile (fun c => !(c == '.'))

/-- Python `"%03d" % n` for a natural number. -/
def zeroPad3 (n : ℕ) : String :=
  let s := toString n
  if s.length < 3 then String.mk (List.replicate (3 - s.length) '0') ++ s else s

/-- The status icons the dialog puts in the table's status column. -/
inductive StatusIcon where
  | errorIcon
  | clearIcon
  | warningIcon
deriving DecidableEq

/-- A mutation `apply_to_render_queue_items` performs on a row's render-queue
item, its output module, or the output folder on disk. -/
inductive ItemEffect where
  | applyTemplate (name : String)
  | setTimeSpanSetting (v : ℤ)
  | setTimeSpan (start dur : ℚ)
  | makeDirs (path : List Char)
  | setOutputFile (path : List Char)
deriving DecidableEq

/-- Environment of `apply_to_render_queue_items`: the templating inputs, the
`render_presets` mapping (preset name to resolved path), and an
`os.path.exists` oracle. -/
structure ApplyEnv where
  sg : SgEnv
  presets : List (String × String)
  pathExists : String → Bool

/-- A row of the comp table as seen by `apply_to_render_queue_items`, with
boolean oracles for the host calls the loop body branches on:
`templateCheckOk` is the result of `check_template_exists`,
`applyTemplateRaises` whether `outputModule.applyTemplate` raises, and
`currentTimeSpan` the item's current `"Time Span"` setting. -/
structure ApplyRow where
  includeChecked : Bool
  mode : String
  lineText : List Char
  comp : Comp
  templateName : String
  useCompName : Bool
  templateCheckOk : Bool
  applyTemplateRaises : Bool
  currentTimeSpan : ℤ

/-- The outcome of one iteration of the `apply_to_render_queue_items` loop on
a row: the status-column icon and tooltip it sets (`none` = left untouched),
the resulting include-checkbox state, and the item mutations performed. -/
structure ApplyRowResult where
  statusIcon : Option StatusIcon
  tooltip : Option String
  includeChecked : Bool
  effects : List ItemEffect
deriving DecidableEq

/-- The result for a row skipped over a bad frame range
(dialog.py:454-461): error icon, error tooltip, include checkbox cleared, and
no mutation of the row's render-queue item. -/
def badFrameRangeResult : ApplyRowResult :=
  ⟨some StatusIcon.errorIcon, some "Template Not Applied | Error - Bad Frame Range",
   false, []⟩

/-- One iteration of the `apply_to_render_queue_items` loop
(dialog.py:432-582).  `Except.error` is an uncaught exception escaping the
whole method (`get_shotgrid_template`'s raise, or the unchecked
`re.match(...).group` when the project file name does not parse). -/
def processApplyRow (env : ApplyEnv) (r : ApplyRow) : Except String ApplyRowResult :=
  if !r.includeChecked then
    .ok ⟨none, none, r.includeChecked, []⟩
  else
    let render_queue_template := env.presets.lookup r.templateName
    let frame_range := get_frame_range r.mode r.lineText r.comp
    if frame_range.1 = none ∨ frame_range.2 = none then
      .ok badFrameRangeResult
    else if !r.templateCheckOk then
      .ok ⟨some StatusIcon.errorIcon, some "Template Not Applied | Error - Template Not Found",
           false, []⟩
    else if r.applyTemplateRaises then
      .ok ⟨some StatusIcon.errorIcon, some "Template Not Applied | Error", false, []⟩
    else
      let timespanEffects :=
        if r.mode = compText then
          if r.currentTimeSpan = 0 then [] else [ItemEffect.setTimeSpanSetting 0]
        else if r.mode = workAreaText then
          if r.currentTimeSpan = 1 then [] else [ItemEffect.setTimeSpanSetting 1]
        else if r.mode = customText then
          [ItemEffect.setTimeSpan (frame_range.1.getD 0) (frame_range.2.getD 0 - frame_range.1.getD 0)]
        else if r.mode = singleFrameText then
          [ItemEffect.setTimeSpan (frame_range.1.getD 0) (r.comp.frameDuration * 1)]
        else []
      match render_queue_template with
      | none => .error "TypeError: expected str, bytes or os.PathLike object, not NoneType"
      | some template_path =>
        match get_shotgrid_template env.sg template_path.data with
        | .error e => .error e
        | .ok outputLocation0 =>
          let folderPath := dirName outputLocation0
          let mkdirEffects :=
            if env.pathExists folderPath.asString then [] else [ItemEffect.makeDirs folderPath]
          let renamed : Except String (List Char × List ItemEffect) :=
            if r.useCompName then
              match pyMatchFile env.sg.projectFileName with
              | none => .error "AttributeError: NoneType object has no attribute group"
              | some (_, ver) =>
                let originalOutputFile := replaceFrom folderPath [] outputLocation0
                let newFileName := r.comp.name.data ++ "_v".data ++ (zeroPad3 ver).data
                let newOutputFile := subFirstNonDotRun newFileName originalOutputFile
                let outputLocation1 := osPathJoinL (osPathJoinL folderPath r.comp.name.data) newOutputFile
                let folderPath1 := dirName outputLocation1
                .ok (outputLocation1,
                     if env.pathExists folderPath1.asString then []
                     else [ItemEffect.makeDirs folderPath1])
            else .ok (outputLocation0, [])
          match renamed with
          | .error e => .error e
          | .ok (outputLocation1, renameEffects) =>
            let outputLocation2 :=
              if r.mode = singleFrameText then subFrameToken outputLocation1 else outputLocation1
            .ok ⟨some StatusIcon.clearIcon, some "Template Applied | Ready to Render", true,
                 [ItemEffect.applyTemplate r.templateName]
                 ++ timespanEffects ++ mkdirEffects ++ renameEffects
                 ++ [ItemEffect.setOutputFile outputLocation2,
                     ItemEffect.setOutputFile outputLocation2]⟩

/-- The `apply_to_render_queue_items` loop over the table rows
(dialog.py:432-582): rows are processed in order; an uncaught exception aborts
the whole method. -/
def applyToRenderQueueItems (env : ApplyEnv) : List ApplyRow → Except String (List ApplyRowResult)
  | [] => .ok []
  | r :: rest =>
    match processApplyRow env r with
    | .error e => .error e
    | .ok a =>
      match applyToRenderQueueItems env rest with
      | .error e => .error e
      | .ok as => .ok (a :: as)

theorem pyRound_intCast (z : ℤ) : pyRound (z : ℚ) = z := by
  unfold pyRound
  rw [Int.fract_intCast, Int.floor_intCast]
  norm_num

theorem pyRound_int_add_small (z : ℤ) (e : ℚ) (h0 : 0 ≤ e) (h1 : e < 1/2) :
    pyRound ((z : ℚ) + e) = z := by
  have hf : Int.fract ((z : ℚ) + e) = e := by
    rw [Int.fract_int_add]
    exact Int.fract_eq_self.mpr ⟨h0, by linarith⟩
  have hfl : ⌊(z : ℚ) + e⌋ = z := by
    rw [Int.floor_int_add]
    have : ⌊e⌋ = 0 := Int.floor_eq_zero_iff.mpr ⟨h0, by linarith⟩
    omega
  unfold pyRound
  rw [hf, hfl, if_pos h1]

/-- Claim C1: for a composition with positive `frameDuration`, the work-area
branch of `refresh_frame_range` displays exactly
`round(workAreaStart / frameDuration) + displayStartFrame` and
`round((workAreaStart + workAreaDuration) / frameDuration) + displayStartFrame`,
and `get_frame_range` computes its work-area and comp-duration frame numbers
by the same formula `round(time / frameDuration) + displayStartFrame`. -/
theorem claim1_frame_number_formula (c : Comp) (firstFrame lastFrame : ℤ)
    (hd : 0 < c.frameDuration) :
    refresh_frame_range workAreaText c firstFrame lastFrame =
      some ⟨false, toString (frameNumOfTime c c.workAreaStart) ++ " - " ++
        toString (frameNumOfTime c (c.workAreaStart + c.workAreaDuration))⟩
    ∧ get_frame_range_work_area_debug_nums c =
        (frameNumOfTime c c.workAreaStart,
         frameNumOfTime c (c.workAreaStart + c.workAreaDuration))
    ∧ get_frame_range_comp_debug_nums c =
        (frameNumOfTime c 0, frameNumOfTime c c.duration) := by
  have h0 : pyRound (0 : ℚ) = 0 := by
    have := pyRound_intCast 0
    simpa using this
  refine ⟨?_, rfl, ?_⟩
  · unfold refresh_frame_range
    rw [if_neg (by decide), if_neg (by decide), if_pos rfl]
    rfl
  · unfold get_frame_range_comp_debug_nums frameNumOfTime
    simp [pyTrunc, zero_div, h0]

/-- Witness for C1 at a concrete composition. -/
def compW1 : Comp := ⟨"witness_comp", 1/2, 10, 5, 3, 2, 4⟩

theorem claim1_frame_number_formula_witness :
    (0 : ℚ) < compW1.frameDuration ∧
    (refresh_frame_range workAreaText compW1 1 24 =
      some ⟨false, toString (frameNumOfTime compW1 compW1.workAreaStart) ++ " - " ++
        toString (frameNumOfTime compW1 (compW1.workAreaStart + compW1.workAreaDuration))⟩
    ∧ get_frame_range_work_area_debug_nums compW1 =
        (frameNumOfTime compW1 compW1.workAreaStart,
         frameNumOfTime compW1 (compW1.workAreaStart + compW1.workAreaDuration))
    ∧ get_frame_range_comp_debug_nums compW1 =
        (frameNumOfTime compW1 0, frameNumOfTime compW1 compW1.duration)) :=
  ⟨by norm_num [compW1], claim1_frame_number_formula compW1 1 24 (by norm_num [compW1])⟩

/-- Claim C2: in the custom-frame-range mode, a line-edit text matching
digits/non-digit-separator/digits with start `a` and end `b` yields the time
pair `(frameDuration * a - displayStartTime,
frameDuration * b - displayStartTime + 0.0001)`, and a non-matching text
yields `[None, None]`. -/
theorem claim2_custom_range_conversion (c : Comp) (text : List Char) :
    (∀ a b, matchCustomRange text = some (a, b) →
      get_frame_range customText text c =
        (some (c.frameDuration * a - c.displayStartTime),
         some (c.frameDuration * b - c.displayStartTime + 1/10000)))
    ∧ (matchCustomRange text = none →
        get_frame_range customText text c = (none, none)) := by
  constructor
  · intro a b h
    unfold get_frame_range
    rw [if_neg (by decide), if_neg (by decide), if_pos rfl, h]
  · intro h
    unfold get_frame_range
    rw [if_neg (by decide), if_neg (by decide), if_pos rfl, h]

theorem claim2_custom_range_conversion_witness :
    matchCustomRange "1001-1002".data = some (1001, 1002) ∧
    get_frame_range customText "1001-1002".data compW1 =
      (some (compW1.frameDuration * (1001 : ℕ) - compW1.displayStartTime),
       some (compW1.frameDuration * (1002 : ℕ) - compW1.displayStartTime + 1/10000)) :=
  ⟨by decide, (claim2_custom_range_conversion compW1 "1001-1002".data).1 1001 1002 (by decide)⟩

/-- Claim C3: when `displayStartTime = displayStartFrame * frameDuration` and
`frameDuration > 0.0002`, converting a frame number `F` to a time by the
custom-range formula (with or without the `+ 0.0001` end-frame nudge) and back
by the display formula yields `F` again. -/
theorem claim3_round_trip (c : Comp) (F : ℤ)
    (hs : c.displayStartTime = c.displayStartFrame * c.frameDuration)
    (hd : (1 : ℚ)/5000 < c.frameDuration) :
    frameNumOfTime c (c.frameDuration * F - c.displayStartTime) = F ∧
    frameNumOfTime c (c.frameDuration * F - c.displayStartTime + 1/10000) = F := by
  have hd0 : (0 : ℚ) < c.frameDuration := lt_trans (by norm_num) hd
  have hne : c.frameDuration ≠ 0 := ne_of_gt hd0
  constructor
  · unfold frameNumOfTime
    have h1 : (c.frameDuration * F - c.displayStartTime) / c.frameDuration
        = ((F - c.displayStartFrame : ℤ) : ℚ) := by
      rw [hs]
      field_simp
      ring
    rw [h1, pyRound_intCast]
    omega
  · unfold frameNumOfTime
    have h1 : (c.frameDuration * F - c.displayStartTime + 1/10000) / c.frameDuration
        = ((F - c.displayStartFrame : ℤ) : ℚ) + 1/(10000 * c.frameDuration) := by
      rw [hs]
      field_simp
      ring
    have he0 : (0 : ℚ) ≤ 1/(10000 * c.frameDuration) := by positivity
    have he1 : 1/(10000 * c.frameDuration) < 1/2 := by
      rw [div_lt_div_iff₀ (by positivity) (by norm_num)]
      linarith
    rw [h1, pyRound_int_add_small _ _ he0 he1]
    omega

/-- Witness composition for C3. -/
def compW3 : Comp := ⟨"roundtrip_comp", 1, 1001, 1001, 0, 0, 0⟩

theorem claim3_round_trip_witness :
    compW3.displayStartTime = compW3.displayStartFrame * compW3.frameDuration ∧
    (1 : ℚ)/5000 < compW3.frameDuration ∧
    (frameNumOfTime compW3 (compW3.frameDuration * (1005 : ℤ) - compW3.displayStartTime) = 1005 ∧
     frameNumOfTime compW3 (compW3.frameDuration * (1005 : ℤ) - compW3.displayStartTime + 1/10000) = 1005) :=
  ⟨by norm_num [compW3], by norm_num [compW3],
   claim3_round_trip compW3 1005 (by norm_num [compW3]) (by norm_num [compW3])⟩

theorem lastSat_some {p : ℕ → Bool} {n k : ℕ} (h : lastSat p n = some k) :
    k < n ∧ p k = true := by
  have hx : k ∈ ((List.range n).filter p).getLast? := Option.mem_def.mpr h
  obtain ⟨hne, hk⟩ := List.mem_getLast?_eq_getLast hx
  have hmem : k ∈ (List.range n).filter p := by
    rw [hk]
    exact List.getLast_mem hne
  exact ⟨List.mem_range.mp (List.mem_of_mem_filter hmem), List.of_mem_filter hmem⟩

theorem lastSat_isSome {p : ℕ → Bool} {n k : ℕ} (hk : k < n) (hp : p k = true) :
    ∃ m, lastSat p n = some m := by
  have hne : (List.range n).filter p ≠ [] := by
    intro hnil
    have hm : k ∈ (List.range n).filter p :=
      List.mem_filter.mpr ⟨List.mem_range.mpr hk, hp⟩
    rw [hnil] at hm
    simp at hm
  exact ⟨_, List.getLast?_eq_getLast_of_ne_nil hne⟩

theorem vpatAt_elim {s : List Char} {j : ℕ} (h : vpatAt s j = true) :
    ∃ d1 d2 d3 t, d1.isDigit = true ∧ d2.isDigit = true ∧ d3.isDigit = true ∧
      s.drop j = '_' :: 'v' :: d1 :: d2 :: d3 :: t := by
  unfold vpatAt at h
  rcases hd : s.drop j with _ | ⟨c0, l1⟩
  · rw [hd] at h; simp at h
  rcases l1 with _ | ⟨c1, l2⟩
  · rw [hd] at h; simp at h
  rcases l2 with _ | ⟨d1, l3⟩
  · rw [hd] at h; simp at h
  rcases l3 with _ | ⟨d2, l4⟩
  · rw [hd] at h; simp at h
  rcases l4 with _ | ⟨d3, t⟩
  · rw [hd] at h; simp at h
  rw [hd] at h
  have h' : (c0 == '_' && (c1 == 'v') && d1.isDigit && d2.isDigit && d3.isDigit) = true := h
  simp only [Bool.and_eq_true, beq_iff_eq] at h'
  obtain ⟨⟨⟨⟨hc0, hc1⟩, h1⟩, h2⟩, h3⟩ := h'
  subst hc0
  subst hc1
  exact ⟨d1, d2, d3, t, h1, h2, h3, rfl⟩

theorem vpatAt_intro {s : List Char} {j : ℕ} {d1 d2 d3 : Char} {t : List Char}
    (h1 : d1.isDigit = true) (h2 : d2.isDigit = true) (h3 : d3.isDigit = true)
    (hd : s.drop j = '_' :: 'v' :: d1 :: d2 :: d3 :: t) : vpatAt s j = true := by
  unfold vpatAt
  rw [hd]
  simp [h1, h2, h3]

theorem underscoreAt_elim {s : List Char} {i : ℕ} (h : underscoreAt s i = true) :
    s.drop i = '_' :: s.drop (i + 1) := by
  unfold underscoreAt at h
  rcases hd : s.drop i with _ | ⟨c, t⟩
  · rw [hd] at h; simp at h
  · have hc : c = '_' := by
      rw [hd] at h
      simpa using h
    have ht : s.drop (i + 1) = t := by
      rw [← List.tail_drop s i, hd, List.tail_cons]
    subst hc
    rw [ht]

theorem underscoreAt_intro {s : List Char} {i : ℕ} {t : List Char}
    (hd : s.drop i = '_' :: t) : underscoreAt s i = true := by
  unfold underscoreAt
  rw [hd]
  simp

theorem pyMatchFile_isSome_iff (s : List Char) :
    (pyMatchFile s).isSome = true ↔ filePatternHolds s := by
  constructor
  · intro h
    unfold pyMatchFile at h
    cases hout : lastSat (fun i => underscoreAt s i && hasLaterVpat s i) s.length with
    | none => rw [hout] at h; simp at h
    | some i =>
      rw [hout] at h
      have h2 : (match lastSat (fun j => decide (i < j) && vpatAt s j) s.length with
          | none => (none : Option (List Char × ℕ))
          | some j => some ((s.drop (i + 1)).take (j - (i + 1)),
              digitsToNat ((s.drop (j + 2)).take 3))).isSome = true := h
      obtain ⟨hin, hpi⟩ := lastSat_some hout
      rw [Bool.and_eq_true] at hpi
      cases hinner : lastSat (fun j => decide (i < j) && vpatAt s j) s.length with
      | none => rw [hinner] at h2; simp at h2
      | some j =>
        obtain ⟨hjn, hpj⟩ := lastSat_some hinner
        rw [Bool.and_eq_true, decide_eq_true_iff] at hpj
        obtain ⟨d1, d2, d3, t, h1, h2, h3, hdrop⟩ := vpatAt_elim hpj.2
        have hu : s.drop i = '_' :: s.drop (i + 1) := underscoreAt_elim hpi.1
        refine ⟨s.take i, (s.drop (i + 1)).take (j - (i + 1)), d1, d2, d3, t,
          h1, h2, h3, ?_⟩
        have hsplit : s.drop (i + 1) =
            (s.drop (i + 1)).take (j - (i + 1)) ++ s.drop j := by
          have hdd : (s.drop (i + 1)).drop (j - (i + 1)) = s.drop j := by
            rw [List.drop_drop]
            congr 1
            omega
          conv_lhs => rw [← List.take_append_drop (j - (i + 1)) (s.drop (i + 1))]
          rw [hdd]
        calc s = s.take i ++ s.drop i := (List.take_append_drop i s).symm
          _ = s.take i ++ '_' :: s.drop (i + 1) := by rw [hu]
          _ = s.take i ++ '_' :: ((s.drop (i + 1)).take (j - (i + 1)) ++
              ('_' :: 'v' :: d1 :: d2 :: d3 :: t)) := by
            rw [← hdrop, ← hsplit]
  · rintro ⟨a, b, d1, d2, d3, c, h1, h2, h3, rfl⟩
    set s := a ++ '_' :: (b ++ '_' :: 'v' :: d1 :: d2 :: d3 :: c) with hs
    have hs2 : s = (a ++ '_' :: b) ++ ('_' :: 'v' :: d1 :: d2 :: d3 :: c) := by
      simp [hs]
    have hdi : s.drop a.length = '_' :: (b ++ '_' :: 'v' :: d1 :: d2 :: d3 :: c) := by
      rw [hs, List.drop_left]
    have hdj : s.drop (a.length + 1 + b.length) = '_' :: 'v' :: d1 :: d2 :: d3 :: c := by
      rw [hs2]
      have hlen : a.length + 1 + b.length = (a ++ '_' :: b).length := by
        simp
        omega
      rw [hlen, List.drop_left]
    have hu : underscoreAt s a.length = true := underscoreAt_intro hdi
    have hv : vpatAt s (a.length + 1 + b.length) = true := vpatAt_intro h1 h2 h3 hdj
    have hjn : a.length + 1 + b.length < s.length := by
      rw [hs2]
      simp
      omega
    have hin : a.length < s.length := by omega
    have hij : a.length < a.length + 1 + b.length := by omega
    have hlater : hasLaterVpat s a.length = true := by
      unfold hasLaterVpat
      rw [List.any_eq_true]
      exact ⟨a.length + 1 + b.length, List.mem_range.mpr hjn, by simp [hij, hv]⟩
    unfold pyMatchFile
    obtain ⟨i', hi'⟩ := lastSat_isSome (p := fun i => underscoreAt s i && hasLaterVpat s i)
      hin (by simp [hu, hlater])
    rw [hi']
    obtain ⟨hi'n, hpi'⟩ := lastSat_some hi'
    rw [Bool.and_eq_true] at hpi'
    have hpi2 := hpi'.2
    unfold hasLaterVpat at hpi2
    rw [List.any_eq_true] at hpi2
    obtain ⟨j', hj'mem, hj'p⟩ := hpi2
    obtain ⟨j'', hj''⟩ := lastSat_isSome (p := fun j => decide (i' < j) && vpatAt s j)
      (List.mem_range.mp hj'mem) hj'p
    show (match lastSat (fun j => decide (i' < j) && vpatAt s j) s.length with
        | none => (none : Option (List Char × ℕ))
        | some j => some ((s.drop (i' + 1)).take (j - (i' + 1)),
            digitsToNat ((s.drop (j + 2)).take 3))).isSome = true
    rw [hj'']
    rfl

/-- Both branches of an `if` that returns `Except.ok` are `ok`. -/
theorem exists_ok_ite {α : Type} {A : Prop} [Decidable A] (x y : α) :
    ∃ p, (if A then Except.ok x else Except.ok y : Except String α) = Except.ok p := by
  by_cases hA : A
  · exact ⟨x, by rw [if_pos hA]⟩
  · exact ⟨y, by rw [if_neg hA]⟩

/-- Claim C4: `get_shotgrid_template` raises exactly when the open project's
file name does not match `(.*)(_)(.*)(_v)(\d\d\d)(.*)`, i.e. does not contain
an underscore followed later by `_v` and three digits; when the name matches,
it returns an output path without raising. -/
theorem claim4_template_raises_iff_bad_filename (env : SgEnv) (rqt : List Char) :
    (∃ p, get_shotgrid_template env rqt = Except.ok p) ↔
      filePatternHolds env.projectFileName := by
  rw [← pyMatchFile_isSome_iff]
  unfold get_shotgrid_template
  cases hm : pyMatchFile env.projectFileName with
  | none => simp [hm]
  | some gv =>
    obtain ⟨g3, ver⟩ := gv
    simp only [hm]
    constructor
    · intro
      rfl
    · intro
      exact exists_ok_ite _ _

/-- Claim C5: when the project file name parses, `get_shotgrid_template`
returns exactly the spec's output path: the `mov_render_template` toolkit
template is chosen when the render-queue template's file name starts with
`mov` (`seq_render_template` otherwise), and when `SEQ` is among the resolved
template's keys the fields are applied with `SEQ = 9999` and `.9999.` is
replaced by `.[####].`; without `SEQ` the `apply_fields` result is returned
unchanged. -/
theorem claim5_output_path_templating (env : SgEnv) (rqt g3 : List Char) (ver : ℕ)
    (hm : pyMatchFile env.projectFileName = some (g3, ver)) :
    get_shotgrid_template env rqt = Except.ok (specOutputPath env rqt g3 ver) := by
  unfold get_shotgrid_template specOutputPath
  split
  · rename_i heq
    rw [hm] at heq
    cases heq
  · rename_i g3x verx heq
    rw [hm] at heq
    injection heq with hpair
    cases hpair
    dsimp only
    split <;> split <;> rfl

/-- Concrete toolkit environment for the templating witnesses. -/
def sgEnvW : SgEnv :=
  { movRenderTemplateName := "movt".data
    seqRenderTemplateName := "seqt".data
    getTemplateByName := fun _ => ⟨["SEQ".data], fun _ => "shot.9999.exr".data⟩
    contextFields := fun _ => fun _ => none
    projectFileName := "shot_name_v001.aep".data }

theorem claim5_output_path_templating_witness :
    pyMatchFile sgEnvW.projectFileName = some ("name".data, 1) ∧
    get_shotgrid_template sgEnvW "seq_exr".data =
      Except.ok (specOutputPath sgEnvW "seq_exr".data "name".data 1) :=
  ⟨by decide, claim5_output_path_templating sgEnvW "seq_exr".data "name".data 1 (by decide)⟩

theorem mem_of_getLast?_eq {l : List Char} {a : Char} (h : l.getLast? = some a) : a ∈ l := by
  obtain ⟨hne, hk⟩ := List.mem_getLast?_eq_getLast (Option.mem_def.mpr h)
  rw [hk]
  exact List.getLast_mem hne

theorem mem_regexBody_not_word {s : List Char} (hmem : ' ' ∈ regexBody s) :
    nameRegexMatch s = false := by
  have hall : (regexBody s).all wordChar = false := by
    by_contra hab
    have htrue : (regexBody s).all wordChar = true := by
      cases hx : (regexBody s).all wordChar
      · exact absurd hx hab
      · rfl
    have := List.all_eq_true.mp htrue ' ' hmem
    simp [wordChar] at this
  unfold nameRegexMatch
  rw [hall, Bool.and_false]

theorem spacesReject_imp_noMatch (s : List Char) (h : spacesReject s = true) :
    nameRegexMatch s = false := by
  unfold spacesReject at h
  rw [Bool.or_eq_true, beq_iff_eq, beq_iff_eq] at h
  rcases h with hh | hl
  · apply mem_regexBody_not_word
    cases s with
    | nil => simp at hh
    | cons c t =>
      have hc : c = ' ' := by simpa using hh
      subst hc
      unfold regexBody
      by_cases hn : (' ' :: t).getLast? = some '\n'
      · rw [if_pos hn]
        cases t with
        | nil => simp at hn
        | cons u t' =>
          rw [List.dropLast_cons₂]
          exact List.mem_cons_self _ _
      · rw [if_neg hn]
        exact List.mem_cons_self _ _
  · apply mem_regexBody_not_word
    have hne : s.getLast? ≠ some '\n' := by
      rw [hl]
      intro hcon
      simp at hcon
    unfold regexBody
    rw [if_neg hne]
    exact mem_of_getLast?_eq hl

/-- A row whose comp name is word characters followed by a trailing newline:
it passes every submission check although its name is not made of letters,
digits and underscores only. -/
def rowNewlineW : SubmitRow :=
  { includeChecked := true
    status := RQItemStatus.QUEUED
    item := { compName := "comp_01\n", outputFiles := [], frameDuration := 1,
              displayStartTime := 0, timeSpanStart := 0, timeSpanDuration := 0 } }

/-- Counterexample to claim C9 as stated: the row `rowNewlineW` is submitted
(include checked, status `QUEUED`, no space check hit, and
`re.match(r'^[a-zA-Z0-9_]+$', name)` succeeds because `$` also matches just
before a trailing newline), yet its comp name `"comp_01\n"` does not consist
of letters, digits and underscores only. -/
theorem claim9_counterexample :
    rowSubmitted rowNewlineW = true ∧
    rowNewlineW.item.compName.data.all wordChar = false := by
  decide

/-- Claim C9 (amended): a render-queue item is submitted only if its include
checkbox is checked, its status is `QUEUED`, and its comp name matches
`^[a-zA-Z0-9_]+$`; consequently every submitted job's comp name is a nonempty
run of letters, digits and underscores, except that the regex also accepts a
single trailing newline; and the separate leading/trailing-space check can
never be the sole reason a name is rejected, being subsumed by the regex
check. -/
theorem claim9_submission_name_invariant (r : SubmitRow) :
    (rowSubmitted r = true →
      r.includeChecked = true ∧ r.status = RQItemStatus.QUEUED ∧
      nameRegexMatch r.item.compName.data = true ∧
      (regexBody r.item.compName.data).all wordChar = true ∧
      (regexBody r.item.compName.data).isEmpty = false) ∧
    (spacesReject r.item.compName.data = true →
      nameRegexMatch r.item.compName.data = false) := by
  constructor
  · intro h
    unfold rowSubmitted at h
    simp only [Bool.and_eq_true, beq_iff_eq] at h
    obtain ⟨⟨⟨hi, hst⟩, hsp⟩, hnm⟩ := h
    have hnm' := hnm
    unfold nameRegexMatch at hnm'
    rw [Bool.and_eq_true, Bool.not_eq_true'] at hnm'
    exact ⟨hi, hst, hnm, hnm'.2, hnm'.1⟩
  · exact spacesReject_imp_noMatch _

/-- A row passing all submission checks with a plain word-character name. -/
def rowPlainW : SubmitRow :=
  { includeChecked := true
    status := RQItemStatus.QUEUED
    item := { compName := "comp_01", outputFiles := [], frameDuration := 1,
              displayStartTime := 0, timeSpanStart := 0, timeSpanDuration := 0 } }

/-- A row whose comp name starts with a space. -/
def rowSpaceW : SubmitRow :=
  { includeChecked := true
    status := RQItemStatus.QUEUED
    item := { compName := " comp", outputFiles := [], frameDuration := 1,
              displayStartTime := 0, timeSpanStart := 0, timeSpanDuration := 0 } }

theorem claim9_submission_name_invariant_witness :
    (rowPlainW.includeChecked = true ∧ rowPlainW.status = RQItemStatus.QUEUED ∧
      nameRegexMatch rowPlainW.item.compName.data = true ∧
      (regexBody rowPlainW.item.compName.data).all wordChar = true ∧
      (regexBody rowPlainW.item.compName.data).isEmpty = false) ∧
    nameRegexMatch rowSpaceW.item.compName.data = false :=
  ⟨(claim9_submission_name_invariant rowPlainW).1 (by decide),
   (claim9_submission_name_invariant rowSpaceW).2 (by decide)⟩

theorem osPathJoin_deadlinecommand (a : String) :
    osPathJoin a "deadlinecommand" ≠ "" ∧
    "deadlinecommand".data <:+ (osPathJoin a "deadlinecommand").data := by
  unfold osPathJoin osPathJoinL
  rw [if_neg (by decide)]
  by_cases hc : a.data = [] ∨ a.data.getLast? = some '/'
  · rw [if_pos hc]
    constructor
    · intro hemp
      have hdata : a.data ++ "deadlinecommand".data = [] := congrArg String.data hemp
      simp at hdata
    · exact List.suffix_append _ _
  · rw [if_neg hc]
    constructor
    · intro hemp
      have hdata : a.data ++ '/' :: "deadlinecommand".data = [] := congrArg String.data hemp
      simp at hdata
    · have hassoc : a.data ++ '/' :: "deadlinecommand".data =
          (a.data ++ ['/']) ++ "deadlinecommand".data := by
        simp
      rw [hassoc]
      exact List.suffix_append _ _

/-- Claim C10: `get_deadline_command` always returns a nonempty string ending
in the path component `deadlinecommand` — also when `DEADLINE_PATH` is unset
and the OSX fallback file is absent — so the "Deadline command not found"
early return of `call_deadline_command` is unreachable. -/
theorem claim10_deadline_command_nonempty (envVar osxFile : Option String) :
    get_deadline_command envVar osxFile ≠ "" ∧
    "deadlinecommand".data <:+ (get_deadline_command envVar osxFile).data ∧
    callDeadlineCommandEarlyReturn envVar osxFile = false := by
  refine ⟨(osPathJoin_deadlinecommand _).1, (osPathJoin_deadlinecommand _).2, ?_⟩
  unfold callDeadlineCommandEarlyReturn
  exact decide_eq_false (osPathJoin_deadlinecommand _).1

/-- Claim C6: when the item's output file name ends with one of the configured
movie-format extensions, the generated submission info file always contains
the lines `MachineLimit=1` and `ChunkSize=1000000`, regardless of the user's
Deadline settings; for non-movie, non-multi-machine outputs it contains the
machine limit and chunk size read from the settings dictionary. -/
theorem claim6_movie_machine_limit (env : SubmitEnv) (s : DeadlineSettings)
    (item : SubmitItem) (previousJobId : String) :
    (isMovieOutput env.movieFormats (lastOutputFileName item) = true →
      "MachineLimit=1" ∈ submitInfoLines env s item previousJobId ∧
      "ChunkSize=1000000" ∈ submitInfoLines env s item previousJobId) ∧
    (isMovieOutput env.movieFormats (lastOutputFileName item) = false →
      (s.multi_machine).getD false = false →
      ("MachineLimit=" ++ (s.machine_limit).getD "0") ∈ submitInfoLines env s item previousJobId ∧
      ("ChunkSize=" ++ (s.chunk_size).getD "15") ∈ submitInfoLines env s item previousJobId) := by
  constructor
  · intro hmov
    unfold submitInfoLines
    rw [hmov]
    constructor <;> simp
  · intro hmov hmulti
    unfold submitInfoLines
    rw [hmov, hmulti]
    constructor <;> simp

/-- A Deadline settings dictionary with no optional keys set. -/
def settingsW : DeadlineSettings :=
  { priority := none, comment := none, department := none, group := none,
    pool := none, secondary_pool := none, task_timeout_minutes := none,
    limit_groups := none, concurrent_tasks := none,
    limit_concurrent_tasks_to_number_cpus := none, job_dependencies := none,
    on_job_complete := none, failure_detection_task_errors := none,
    failure_detection_job_errors := none, frame_list := none,
    machine_limit := none, chunk_size := none, machine_list := "",
    submit_allow_list_as_deny_list := none, submit_suspended := none,
    override_frame_list := none, first_and_last := none, multi_machine := none,
    submit_scene := none, include_output_path := none, missing_layers := none,
    missing_effects := none, fail_on_warnings := none, local_rendering := none,
    fail_on_missing_file := none, delete_files := none,
    memory_management := none, multi_process := none, missing_footage := none,
    override_fail_on_existing_ae_process := none,
    fail_on_existing_ae_process := none, multi_machine_tasks := none,
    file_size := none, image_cache_percentage := none,
    max_memory_percentage := none }

/-- A concrete submission environment with `.mov` as the only movie format. -/
def submitEnvW : SubmitEnv :=
  { movieFormats := [".mov"], projectFileName := "proj_name_v001.aep",
    projectFsName := "/jobs/proj_name_v001.aep", selfProjectName := "proj",
    frameOffset := 0, appVersion := "24.0x1", tempFolder := "/home/user/temp/",
    timestamp := "20260101_000000", hasProject := true, hasProjectFile := true,
    rqNumItems := 1 }

/-- A render-queue item whose output is a movie. -/
def itemMovW : SubmitItem :=
  { compName := "comp_mov", outputFiles := [("out.mov", "/renders/out.mov")],
    frameDuration := 1, displayStartTime := 0, timeSpanStart := 0,
    timeSpanDuration := 1 }

/-- A render-queue item whose output is an image sequence. -/
def itemSeqW : SubmitItem :=
  { compName := "comp_seq",
    outputFiles := [("out.[####].exr", "/renders/out.[####].exr")],
    frameDuration := 1, displayStartTime := 0, timeSpanStart := 0,
    timeSpanDuration := 1 }

theorem claim6_movie_machine_limit_witness :
    ("MachineLimit=1" ∈ submitInfoLines submitEnvW settingsW itemMovW "" ∧
     "ChunkSize=1000000" ∈ submitInfoLines submitEnvW settingsW itemMovW "") ∧
    (("MachineLimit=" ++ (settingsW.machine_limit).getD "0") ∈
        submitInfoLines submitEnvW settingsW itemSeqW "" ∧
     ("ChunkSize=" ++ (settingsW.chunk_size).getD "15") ∈
        submitInfoLines submitEnvW settingsW itemSeqW "") :=
  ⟨(claim6_movie_machine_limit submitEnvW settingsW itemMovW "").1 (by decide),
   (claim6_movie_machine_limit submitEnvW settingsW itemSeqW "").2 (by decide) (by decide)⟩

/-- Claim C8: an included row for which `get_frame_range` yields `None` for
the start or end value is skipped atomically: no template is applied, the
item's time span and output file are untouched, the status becomes the error
icon with the bad-frame-range tooltip, the include checkbox is unchecked, and
the loop continues with the remaining rows. -/
theorem claim8_bad_frame_range_atomic (env : ApplyEnv) (r : ApplyRow)
    (rest : List ApplyRow) (hinc : r.includeChecked = true)
    (hbad : (get_frame_range r.mode r.lineText r.comp).1 = none ∨
            (get_frame_range r.mode r.lineText r.comp).2 = none) :
    processApplyRow env r = .ok badFrameRangeResult ∧
    applyToRenderQueueItems env (r :: rest) =
      Except.map (fun results => badFrameRangeResult :: results)
        (applyToRenderQueueItems env rest) := by
  have hp : processApplyRow env r = .ok badFrameRangeResult := by
    unfold processApplyRow
    rw [hinc]
    dsimp only
    rw [if_pos hbad]
    simp
  refine ⟨hp, ?_⟩
  show (match processApplyRow env r with
    | .error e => .error e
    | .ok a =>
      match applyToRenderQueueItems env rest with
      | .error e => .error e
      | .ok as => .ok (a :: as)) =
    Except.map (fun results => badFrameRangeResult :: results)
      (applyToRenderQueueItems env rest)
  rw [hp]
  cases h : applyToRenderQueueItems env rest <;> simp [Except.map]

/-- Environment for the apply-loop witness. -/
def applyEnvW : ApplyEnv :=
  { sg := sgEnvW, presets := [("EXR", "/presets/seq_exr.aep")],
    pathExists := fun _ => true }

/-- An included row whose custom frame-range text does not parse. -/
def applyRowBadW : ApplyRow :=
  { includeChecked := true, mode := customText, lineText := "abc".data,
    comp := compW1, templateName := "EXR", useCompName := false,
    templateCheckOk := true, applyTemplateRaises := false, currentTimeSpan := 0 }

theorem claim8_bad_frame_range_atomic_witness :
    applyRowBadW.includeChecked = true ∧
    ((get_frame_range applyRowBadW.mode applyRowBadW.lineText applyRowBadW.comp).1 = none ∨
     (get_frame_range applyRowBadW.mode applyRowBadW.lineText applyRowBadW.comp).2 = none) ∧
    (processApplyRow applyEnvW applyRowBadW = .ok badFrameRangeResult ∧
     applyToRenderQueueItems applyEnvW [applyRowBadW] =
       Except.map (fun results => badFrameRangeResult :: results)
         (applyToRenderQueueItems applyEnvW [])) :=
  ⟨rfl, by decide,
   claim8_bad_frame_range_atomic applyEnvW applyRowBadW [] rfl (by decide)⟩

/-- A table row whose include checkbox is cleared. -/
def rowOffW : SubmitRow :=
  { includeChecked := false, status := RQItemStatus.QUEUED, item := itemSeqW }

/-- The timestamped backup file the submission path copies the project to. -/
def backupFileW : String :=
  stringReplace
    (osPathJoin (osPathJoin (dirNameStr submitEnvW.projectFsName)
      "deadline_submission_backup") submitEnvW.projectFileName)
    ".aep" ("_" ++ submitEnvW.timestamp ++ ".aep")

/-- Counterexample to claim C7 as stated: even with every row excluded and no
project save, `submit_to_deadline` still copies the project file into the
`deadline_submission_backup` folder, an effect that is not a write of the two
job-description files in the temp folder. -/
theorem claim7_counterexample :
    ¬ (∀ e ∈ submit_to_deadline_effects submitEnvW settingsW [rowOffW] false true none none,
        ∃ c, e = FsEffect.writeFile (osPathJoin submitEnvW.tempFolder "ae_submit_info.job") c
           ∨ e = FsEffect.writeFile (osPathJoin submitEnvW.tempFolder "ae_plugin_info.job") c) := by
  intro h
  have hc := h (FsEffect.copyFile submitEnvW.projectFsName backupFileW) (by
    unfold submit_to_deadline_effects
    rw [if_neg (by decide)]
    simp [backupFileW, rowSubmitted, rowOffW])
  obtain ⟨c, hc1 | hc1⟩ := hc <;> exact FsEffect.noConfusion hc1

/-- Claim C7 (amended): beyond the two ephemeral job-description text files in
the user's temp folder, the submission path also (optionally) saves the
project, creates the `deadline_submission_backup` folder next to the project
when missing, copies the project file into it with a timestamp suffix,
creates the temp folder, and invokes the external `deadlinecommand`; it
performs no further filesystem effects. -/
theorem claim7_submission_effects (env : SubmitEnv) (s : DeadlineSettings)
    (rows : List SubmitRow) (saveProjectYes backupDirExists : Bool)
    (dEnv dFile : Option String) :
    ∀ e ∈ submit_to_deadline_effects env s rows saveProjectYes backupDirExists dEnv dFile,
      e = FsEffect.saveProject
      ∨ e = FsEffect.makeDirs
          (osPathJoin (dirNameStr env.projectFsName) "deadline_submission_backup")
      ∨ e = FsEffect.copyFile env.projectFsName
          (stringReplace
            (osPathJoin (osPathJoin (dirNameStr env.projectFsName)
              "deadline_submission_backup") env.projectFileName)
            ".aep" ("_" ++ env.timestamp ++ ".aep"))
      ∨ e = FsEffect.makeDirs env.tempFolder
      ∨ (∃ c, e = FsEffect.writeFile (osPathJoin env.tempFolder "ae_submit_info.job") c)
      ∨ (∃ c, e = FsEffect.writeFile (osPathJoin env.tempFolder "ae_plugin_info.job") c)
      ∨ (∃ cmd args, e = FsEffect.runCommand cmd args) := by
  intro e he
  unfold submit_to_deadline_effects at he
  split at he
  · simp at he
  · dsimp only at he
    simp only [List.mem_append, List.mem_flatten, List.mem_map] at he
    rcases he with ((hA | hB) | hcopy) | hrows
    · left
      rcases hs : saveProjectYes with _ | _
      · rw [hs] at hA; simp at hA
      · rw [hs] at hA; simpa using hA
    · right; left
      rcases hb : backupDirExists with _ | _
      · rw [hb] at hB
        simpa using hB
      · rw [hb] at hB; simp at hB
    · right; right; left
      simpa using hcopy
    · obtain ⟨l, ⟨r, hr, hl⟩, hel⟩ := hrows
      subst hl
      rcases hrs : rowSubmitted r with _ | _
      · rw [hrs] at hel; simp at hel
      · rw [hrs] at hel
        simp only [if_pos] at hel
        unfold submitItemEffects at hel
        dsimp only at hel
        rcases List.mem_cons.mp hel with h1 | hel
        · right; right; right; left; exact h1
        rcases List.mem_cons.mp hel with h1 | hel
        · right; right; right; right; left; exact ⟨_, h1⟩
        rcases List.mem_cons.mp hel with h1 | hel
        · right; right; right; right; right; left; exact ⟨_, h1⟩
        rcases List.mem_cons.mp hel with h1 | hel
        · right; right; right; right; right; right; exact ⟨_, _, h1⟩
        · simp at hel

theorem claim7_submission_effects_witness :
    FsEffect.copyFile submitEnvW.projectFsName backupFileW ∈
      submit_to_deadline_effects submitEnvW settingsW [rowOffW] false true none none ∧
    (FsEffect.copyFile submitEnvW.projectFsName backupFileW = FsEffect.saveProject
      ∨ FsEffect.copyFile submitEnvW.projectFsName backupFileW = FsEffect.makeDirs
          (osPathJoin (dirNameStr submitEnvW.projectFsName) "deadline_submission_backup")
      ∨ FsEffect.copyFile submitEnvW.projectFsName backupFileW = FsEffect.copyFile
          submitEnvW.projectFsName
          (stringReplace
            (osPathJoin (osPathJoin (dirNameStr submitEnvW.projectFsName)
              "deadline_submission_backup") submitEnvW.projectFileName)
            ".aep" ("_" ++ submitEnvW.timestamp ++ ".aep"))
      ∨ FsEffect.copyFile submitEnvW.projectFsName backupFileW = FsEffect.makeDirs
          submitEnvW.tempFolder
      ∨ (∃ c, FsEffect.copyFile submitEnvW.projectFsName backupFileW =
          FsEffect.writeFile (osPathJoin submitEnvW.tempFolder "ae_submit_info.job") c)
      ∨ (∃ c, FsEffect.copyFile submitEnvW.projectFsName backupFileW =
          FsEffect.writeFile (osPathJoin submitEnvW.tempFolder "ae_plugin_info.job") c)
      ∨ (∃ cmd args, FsEffect.copyFile submitEnvW.projectFsName backupFileW =
          FsEffect.runCommand cmd args)) :=
  ⟨by
    unfold submit_to_deadline_effects
    rw [if_neg (by decide)]
    simp [backupFileW, rowSubmitted, rowOffW],
   claim7_submission_effects submitEnvW settingsW [rowOffW] false true none none
     (FsEffect.copyFile submitEnvW.projectFsName backupFileW) (by
      unfold submit_to_deadline_effects
      rw [if_neg (by decide)]
      simp [backupFileW, rowSubmitted, rowOffW])⟩
